import Mathlib

/-!
Shallow embedding of `custom_components/investing_portfolio` (api.py,
coordinator.py, const.py): locale number parser, "HH:MM" time parser,
schedule policy, API-response classification, and the coordinator's
update/fetch/force-refresh cycles, together with theorems about them.

Python strings are modelled as `String` / `List Char`; Python `float`
results are modelled as `ℚ` (the parsed strings are finite decimals);
a raised exception is modelled as `none` / an error constructor.
-/

namespace InvestingPortfolio

/-- Python's `str.split(sep)` for a single-character separator:
`"".split(":") = [""]`, `"a::b".split(":") = ["a","","b"]`. -/
def splitOnChar (sep : Char) : List Char → List (List Char)
  | [] => [[]]
  | c :: rest =>
    match splitOnChar sep rest with
    | h :: t => if c = sep then [] :: h :: t else (c :: h) :: t
    | [] => if c = sep then [[], []] else [[c]]

/-- ASCII/unicode decimal-digit test used to model Python numeral parsing. -/
def isDigitChar (c : Char) : Bool := c.isDigit

/-- Value of a digit string, most significant first. -/
def digitsToNat (l : List Char) : Nat :=
  l.foldl (fun n c => n * 10 + (c.toNat - ('0').toNat)) 0

/-- Strip leading and trailing whitespace (Python `str.strip()` /
the whitespace tolerance of `int(...)`). -/
def stripWs (l : List Char) : List Char :=
  ((l.dropWhile Char.isWhitespace).reverse.dropWhile Char.isWhitespace).reverse

/-- Python `int(s)` on a decimal string: optional surrounding whitespace,
optional single sign, then a nonempty run of digits; anything else raises
`ValueError`, modelled as `none`. -/
def pyInt (l : List Char) : Option Int :=
  match stripWs l with
  | [] => none
  | '-' :: rest =>
    if rest ≠ [] ∧ rest.all isDigitChar then some (-(digitsToNat rest : Int)) else none
  | '+' :: rest =>
    if rest ≠ [] ∧ rest.all isDigitChar then some (digitsToNat rest : Int) else none
  | t =>
    if t.all isDigitChar then some (digitsToNat t : Int) else none

/-- Python `float(s)` restricted to unsigned finite decimals, the only shapes
reachable from `parse_european_number`'s cleaning step: digits with at most
one `'.'` and at least one digit (`"12"`, `"12."`, `".5"`); anything else
raises `ValueError`, modelled as `none`. The value `n / 10 ^ k` is returned
as the decidable pair `(n, k)`. -/
def pyFloat (l : List Char) : Option (Nat × Nat) :=
  match splitOnChar '.' l with
  | [ip] =>
    if ip ≠ [] ∧ ip.all isDigitChar then some (digitsToNat ip, 0) else none
  | [ip, fp] =>
    if (ip ≠ [] ∨ fp ≠ []) ∧ ip.all isDigitChar ∧ fp.all isDigitChar then
      some (digitsToNat ip * 10 ^ fp.length + digitsToNat fp, fp.length)
    else none
  | _ => none

/-- The cleaning pipeline of `parse_european_number` (coordinator.py):
`value.replace("%","").replace("€","").replace(" ","").strip()`. -/
def pen_cleaned (value : List Char) : List Char :=
  stripWs (((value.filter (· ≠ '%')).filter (· ≠ '€')).filter (· ≠ ' '))

/-- Decidable core of `parse_european_number`: cleaning, sign capture,
separator rewrite, and the `float(...)` attempt.  `some (neg, n, k)` stands
for the successfully parsed value `(-1)^neg * n / 10^k`; `none` stands for
the `ValueError` branch (and for the empty-input early return, which also
yields `0.0`). -/
def pen_core (value : List Char) : Option (Bool × Nat × Nat) :=
  if value = [] then none
  else
    let cleaned := pen_cleaned value
    let is_negative := cleaned.head? = some '-'
    let cleaned := cleaned.dropWhile (fun c => c = '+' ∨ c = '-')
    let cleaned := (cleaned.filter (· ≠ '.')).map (fun c => if c = ',' then '.' else c)
    (pyFloat cleaned).map (fun nk => (is_negative, nk))

/-- `parse_european_number` (coordinator.py lines 38-61): convert a
European-format numeric string to a number; empty or unparseable input
yields `0.0`. -/
def parse_european_number (value : String) : ℚ :=
  match pen_core value.data with
  | some (is_negative, n, k) =>
    let result : ℚ := (n : ℚ) / (10 : ℚ) ^ k
    if is_negative then -result else result
  | none => 0

/-- `parse_time` (coordinator.py lines 64-67): split on `":"` and convert the
first two parts with `int(...)`; a missing part (`IndexError`) or a
non-numeric part (`ValueError`) raises, modelled as `none`. -/
def parse_time (time_str : String) : Option (Int × Int) :=
  let parts := splitOnChar ':' time_str.data
  match parts[0]?.bind pyInt, parts[1]?.bind pyInt with
  | some h, some m => some (h, m)
  | _, _ => none

example : pen_core "240.937,98".data = some (false, 24093798, 2) := by decide
example : parse_european_number "240.937,98" = 24093798 / 100 := by
  have h : pen_core "240.937,98".data = some (false, 24093798, 2) := by decide
  simp [parse_european_number, h]
  norm_num
example : parse_european_number "" = 0 := by
  have h : pen_core "".data = none := by decide
  simp [parse_european_number, h]
example : parse_european_number "garbage" = 0 := by
  have h : pen_core "garbage".data = none := by decide
  simp [parse_european_number, h]
example : parse_time "04:00" = some (4, 0) := by decide
example : parse_time "22:05" = some (22, 5) := by decide
example : parse_time "garbage" = none := by decide
example : parse_time "ab:cd" = none := by decide

/-! ## Schedule policy (coordinator.py `should_update_now`) -/

/-- Error codes from the API (const.py line 41): `x-token` or `x-udid` invalid. -/
def ERROR_TOKEN_EXPIRED : String := "1001"

/-- Error codes from the API (const.py line 42): invalid portfolio ID. -/
def ERROR_INVALID_PORTFOLIO : String := "203"

/-- The five user-configurable schedule options of the coordinator
(coordinator.py lines 101-117). -/
structure ScheduleConfig where
  update_weekday_interval : Nat
  update_weekday_start : Nat
  update_weekday_end : Nat
  update_night_time : String
  update_morning_time : String
deriving DecidableEq

/-- The schedule defaults of const.py lines 34-38. -/
def default_config : ScheduleConfig :=
  { update_weekday_interval := 15
    update_weekday_start := 9
    update_weekday_end := 21
    update_night_time := "22:05"
    update_morning_time := "04:00" }

/-- The fields of `datetime.now()` read by the coordinator:
`weekday()` (0 = Monday .. 6 = Sunday), `hour`, `minute`. -/
structure Instant where
  weekday : Nat
  hour : Nat
  minute : Nat
deriving DecidableEq

/-- `InvestingDataCoordinator.should_update_now` (coordinator.py lines
119-155), as a function of the polled instant and the configuration.
`none` models the exception raised when a configured time string does not
parse. -/
def should_update_now (now : Instant) (cfg : ScheduleConfig) :
    Option (Bool × Nat) := do
  let (morning_hour, morning_minute) ← parse_time cfg.update_morning_time
  let (night_hour, night_minute) ← parse_time cfg.update_night_time
  if (now.hour : Int) = morning_hour ∧ (now.minute : Int) = morning_minute then
    return (true, 60)
  else if (now.hour : Int) = night_hour ∧ (now.minute : Int) = night_minute then
    return (true, 60)
  else if now.weekday < 5 ∧
      cfg.update_weekday_start ≤ now.hour ∧ now.hour < cfg.update_weekday_end ∧
      now.minute % cfg.update_weekday_interval = 0 then
    return (true, 60)
  else
    return (false, 60)

example : should_update_now ⟨6, 4, 0⟩ default_config = some (true, 60) := by decide
example : should_update_now ⟨3, 22, 5⟩ default_config = some (true, 60) := by decide
example : should_update_now ⟨2, 10, 15⟩ default_config = some (true, 60) := by decide
example : should_update_now ⟨2, 10, 16⟩ default_config = some (false, 60) := by decide
example : should_update_now ⟨5, 10, 15⟩ default_config = some (false, 60) := by decide

/-! ## API client (api.py `get_portfolio_summary`) -/

/-- The five numeric fields read (with default `"0"`) out of the upstream
`screen_data` object; `none` models an absent key. -/
structure ScreenFields where
  MarketValue : Option String
  OpenPL : Option String
  OpenPLPerc : Option String
  DailyPL : Option String
  DailyPLPerc : Option String
deriving DecidableEq

/-- One element of the response's `data` list.  `screen_data = none` models
both a missing `"screen_data"` key (`.get` defaults to `{}`) and an empty
dict: either way `if not summary` fires. -/
structure DataEntry where
  screen_data : Option ScreenFields
deriving DecidableEq

/-- The parts of an upstream HTTP response that `get_portfolio_summary`
inspects: the HTTP status, `result["system"]["status"]`,
`result["system"]["message_error_code"]` (both `none` when absent, matching
`.get`), and the `result["data"]` list (`[]` when absent). -/
structure ApiResponse where
  status : Nat
  system_status : Option String
  message_error_code : Option String
  data : List DataEntry
deriving DecidableEq

deriving instance DecidableEq for Except

/-- The typed errors of api.py raised by `get_portfolio_summary`:
`TokenExpiredError`, `PortfolioNotFoundError`, and their parent
`PortfolioError`. -/
inductive ApiError where
  | tokenExpired (msg : String)
  | portfolioNotFound (msg : String)
  | portfolioError (msg : String)
deriving DecidableEq

/-- The dict returned by a successful `get_portfolio_summary` (api.py lines
310-317). -/
structure Summary where
  market_value : String
  open_pl : String
  open_pl_perc : String
  daily_pl : String
  daily_pl_perc : String
  raw_data : ScreenFields
deriving DecidableEq

/-- `InvestingAPI.get_portfolio_summary` (api.py lines 246-320) as a function
of the portfolio id and the received response. -/
def get_portfolio_summary (portfolio_id : Int) (resp : ApiResponse) :
    Except ApiError Summary :=
  if resp.status ≠ 200 then
    .error (.portfolioError ("HTTP error " ++ toString resp.status))
  else if resp.system_status = some "failed" then
    let error_code := resp.message_error_code.getD "unknown"
    if error_code = "1001" then
      .error (.tokenExpired "Token expired or invalid")
    else if error_code = "203" then
      .error (.portfolioNotFound ("Portfolio " ++ toString portfolio_id ++ " not found"))
    else
      .error (.portfolioError ("API error: " ++ error_code))
  else
    match resp.data with
    | [] => .error (.portfolioError "No data in response")
    | entry :: _ =>
      match entry.screen_data with
      | none => .error (.portfolioError "Missing expected screen_data")
      | some summary =>
        .ok
          { market_value := summary.MarketValue.getD "0"
            open_pl := summary.OpenPL.getD "0"
            open_pl_perc := summary.OpenPLPerc.getD "0"
            daily_pl := summary.DailyPL.getD "0"
            daily_pl_perc := summary.DailyPLPerc.getD "0"
            raw_data := summary }

/-- The error-classification outcome of a summary fetch, used to compare the
code with the spec's taxonomy. -/
inductive FetchClass where
  | token
  | notFound
  | generic
  | success
deriving DecidableEq

/-- Classify the result of `get_portfolio_summary`. -/
def classOf (r : Except ApiError Summary) : FetchClass :=
  match r with
  | .ok _ => .success
  | .error (.tokenExpired _) => .token
  | .error (.portfolioNotFound _) => .notFound
  | .error (.portfolioError _) => .generic

/-! ## Polling coordinator (coordinator.py `InvestingDataCoordinator`) -/

/-- The `parsed_data` dict built by `_fetch_data` on success (coordinator.py
lines 226-235). -/
structure SnapshotData where
  portfolio_name : String
  market_value : ℚ
  open_pl : ℚ
  open_pl_perc : ℚ
  daily_pl : ℚ
  daily_pl_perc : ℚ
  timestamp : String
  raw_data : ScreenFields
deriving DecidableEq

/-- The coordinator's mutable fields touched by the update cycle
(coordinator.py lines 94-96): `_last_successful_data`,
`_last_update_minute`, `_error_notified`. -/
structure CoordState where
  last_successful_data : Option SnapshotData
  last_update_minute : Int
  error_notified : Bool
deriving DecidableEq

/-- The constructor's initial values (coordinator.py lines 94-96). -/
def initState : CoordState :=
  { last_successful_data := none, last_update_minute := -1, error_notified := false }

/-- What the awaited `api.get_portfolio_summary(...)` call produced, as seen
by `_fetch_data`'s `try`: a returned summary, a typed api.py error, or any
other exception (the `except Exception` arm). -/
inductive FetchOutcome where
  | ok (s : Summary)
  | err (e : ApiError)
  | unexpected (msg : String)
deriving DecidableEq

/-- The result of one update cycle: a returned dict or a raised
`UpdateFailed` with its message. -/
inductive UpdateResult where
  | ok (data : SnapshotData)
  | failed (msg : String)
deriving DecidableEq

/-- State, emitted persistent notifications, and result of one
`_fetch_data` call. -/
structure FetchEffect where
  state : CoordState
  notifications : List String
  result : UpdateResult
deriving DecidableEq

/-- The `TokenExpiredError` message built in coordinator.py lines 192-196. -/
def token_error_message (portfolio_name msg : String) : String :=
  "❌ Authentication token expired or invalid for '" ++ portfolio_name ++
    "'. Please delete the integration entry and re-configure it with your credentials. Error: "
    ++ msg

/-- The snapshot dict built from a successful summary (coordinator.py lines
226-235); `now_iso` is `datetime.now().isoformat()`. -/
def parse_summary (portfolio_name now_iso : String) (s : Summary) : SnapshotData :=
  { portfolio_name := portfolio_name
    market_value := parse_european_number s.market_value
    open_pl := parse_european_number s.open_pl
    open_pl_perc := parse_european_number s.open_pl_perc
    daily_pl := parse_european_number s.daily_pl
    daily_pl_perc := parse_european_number s.daily_pl_perc
    timestamp := now_iso
    raw_data := s.raw_data }

/-- `InvestingDataCoordinator._fetch_data` (coordinator.py lines 182-245) as
a transition on the coordinator state, parameterised by the outcome of the
network call. -/
def fetch_data (portfolio_name : String) (st : CoordState) (outcome : FetchOutcome)
    (now_iso : String) : FetchEffect :=
  match outcome with
  | .err (.tokenExpired msg) =>
    let error_message := token_error_message portfolio_name msg
    if st.error_notified then
      { state := st, notifications := [], result := .failed error_message }
    else
      { state := { st with error_notified := true }
        notifications := [error_message]
        result := .failed error_message }
  | .err (.portfolioNotFound msg) =>
    { state := st, notifications := []
      result := .failed ("❌ Invalid portfolio ID for '" ++ portfolio_name ++ "'. Error: " ++ msg) }
  | .err (.portfolioError msg) =>
    { state := st, notifications := []
      result := .failed ("API error for '" ++ portfolio_name ++ "': " ++ msg) }
  | .unexpected msg =>
    { state := st, notifications := []
      result := .failed ("Unexpected error fetching data for '" ++ portfolio_name ++ "': " ++ msg) }
  | .ok summary =>
    let parsed_data := parse_summary portfolio_name now_iso summary
    { state := { st with error_notified := false, last_successful_data := some parsed_data }
      notifications := []
      result := .ok parsed_data }

/-- State, notifications, result, and whether a network fetch was issued,
for one `_async_update_data` tick. -/
structure UpdateEffect where
  state : CoordState
  notifications : List String
  result : UpdateResult
  fetched : Bool
deriving DecidableEq

/-- `InvestingDataCoordinator._async_update_data` (coordinator.py lines
157-180) as a transition on the coordinator state.  `none` models the
exception raised out of `should_update_now` on a malformed configured time
string; `outcome` is what the network call would produce if issued. -/
def async_update_data (portfolio_name : String) (st : CoordState) (cfg : ScheduleConfig)
    (now : Instant) (now_iso : String) (outcome : FetchOutcome) : Option UpdateEffect := do
  let current_minute : Int := now.hour * 60 + now.minute
  let (should_update, _) ← should_update_now now cfg
  if current_minute = st.last_update_minute then
    match st.last_successful_data with
    | some d =>
      return { state := st, notifications := [], result := .ok d, fetched := false }
    | none =>
      return { state := st, notifications := []
               result := .failed "Waiting for scheduled update", fetched := false }
  else if should_update = false ∧ st.last_successful_data.isSome then
    match st.last_successful_data with
    | some d =>
      return { state := st, notifications := [], result := .ok d, fetched := false }
    | none =>
      return { state := st, notifications := []
               result := .failed "Waiting for scheduled update", fetched := false }
  else
    let st := { st with last_update_minute := current_minute }
    let eff := fetch_data portfolio_name st outcome now_iso
    return { state := eff.state, notifications := eff.notifications
             result := eff.result, fetched := true }

/-- Effects of `async_force_refresh` (coordinator.py lines 247-251).
`published = some x` records the `async_set_updated_data(x)` call; it is
`none` when `_fetch_data` raised, since the exception propagates before
that call. -/
structure ForceEffect where
  state : CoordState
  notifications : List String
  result : UpdateResult
  published : Option (Option SnapshotData)
  fetched : Bool
deriving DecidableEq

/-- `InvestingDataCoordinator.async_force_refresh` (coordinator.py lines
247-251): reset `_last_update_minute` to `-1`, run `_fetch_data`
unconditionally, and on success publish `_last_successful_data`. -/
def async_force_refresh (portfolio_name : String) (st : CoordState)
    (outcome : FetchOutcome) (now_iso : String) : ForceEffect :=
  let st1 := { st with last_update_minute := -1 }
  let eff := fetch_data portfolio_name st1 outcome now_iso
  match eff.result with
  | .ok _ =>
    { state := eff.state, notifications := eff.notifications, result := eff.result
      published := some eff.state.last_successful_data, fetched := true }
  | .failed m =>
    { state := eff.state, notifications := eff.notifications, result := .failed m
      published := none, fetched := true }

/-- Iterate `_fetch_data` over a run of network-call outcomes, recording for
each cycle whether a persistent notification was emitted. -/
def run_fetch_data (portfolio_name now_iso : String) :
    CoordState → List FetchOutcome → CoordState × List Bool
  | st, [] => (st, [])
  | st, o :: rest =>
    let eff := fetch_data portfolio_name st o now_iso
    ((run_fetch_data portfolio_name now_iso eff.state rest).1,
     (!eff.notifications.isEmpty) :: (run_fetch_data portfolio_name now_iso eff.state rest).2)

/-- Is this outcome a `TokenExpiredError`? -/
def FetchOutcome.isTok : FetchOutcome → Bool
  | .err (.tokenExpired _) => true
  | _ => false

/-- Is this outcome a successful fetch? -/
def FetchOutcome.isOk : FetchOutcome → Bool
  | .ok _ => true
  | _ => false

/-- Is this outcome a failing cycle (any class)? -/
def FetchOutcome.isFailure : FetchOutcome → Bool
  | .ok _ => false
  | _ => true

instance : Inhabited FetchOutcome := ⟨.unexpected ""⟩

/-- The `_error_notified` dynamics of one fetch cycle, read off
`fetch_data`: success clears the flag, a token-expired failure sets it, any
other failure leaves it. -/
def stepFlag (b : Bool) (o : FetchOutcome) : Bool :=
  match o with
  | .ok _ => false
  | .err (.tokenExpired _) => true
  | _ => b

/-- A "HH:MM"-shaped string in the sense of the spec's data model: a `':'`
separating two decimal-integer numerals. -/
def goodHHMM (s : String) : Bool :=
  match splitOnChar ':' s.data with
  | p0 :: p1 :: _ =>
    !p0.isEmpty && p0.all isDigitChar && (!p1.isEmpty && p1.all isDigitChar)
  | _ => false

/-- The amended C2 notification rule: cycle `i` of a run (starting with a
clear `_error_notified` flag) emits a notification exactly when its outcome
is a token-expired failure and every earlier token-expired failure has been
followed by a success strictly before `i` — i.e. de-duplication is per
success-delimited failure run, regardless of intervening failures of other
classes. -/
def amended_notifies (outs : List FetchOutcome) (i : Nat) : Bool :=
  (outs.getD i default).isTok &&
    ((List.range i).all fun j =>
      !(outs.getD j default).isTok ||
        ((List.range i).any fun k => decide (j < k) && (outs.getD k default).isOk))

/-- The amended C6 classification, written from the spec's taxonomy with
"non-2xx HTTP status" corrected to the code's "HTTP status ≠ 200": token
error on upstream code `1001`, not-found on `203`, generic on any other
failure envelope, on a non-200 status, and on structurally malformed data
(missing `data` entries or `screen_data`); success otherwise. -/
def claimed_summary_class (resp : ApiResponse) : FetchClass :=
  if resp.status ≠ 200 then .generic
  else if resp.system_status = some "failed" then
    if resp.message_error_code.getD "unknown" = ERROR_TOKEN_EXPIRED then .token
    else if resp.message_error_code.getD "unknown" = ERROR_INVALID_PORTFOLIO then .notFound
    else .generic
  else if resp.data = [] then .generic
  else if (resp.data.headD ⟨none⟩).screen_data = none then .generic
  else .success

/-! ## Helper lemmas -/

lemma digit_not_ws {c : Char} (h : isDigitChar c = true) : c.isWhitespace = false := by
  simp only [isDigitChar, Char.isDigit, Bool.and_eq_true_iff, decide_eq_true_eq] at h
  obtain ⟨h1, h2⟩ := h
  by_contra hw
  rw [Bool.not_eq_false] at hw
  simp only [Char.isWhitespace, Bool.or_eq_true_iff, decide_eq_true_eq] at hw
  rcases hw with ((hc | hc) | hc) | hc <;> subst hc <;> exact absurd h1 (by decide)

lemma digit_strip {l : List Char} (h : l.all isDigitChar = true) : stripWs l = l := by
  have h1 : ∀ m : List Char, m.all isDigitChar = true → m.dropWhile Char.isWhitespace = m := by
    intro m hm
    cases m with
    | nil => rfl
    | cons c t =>
      rw [List.dropWhile_cons_of_neg]
      simp only [List.all_cons, Bool.and_eq_true_iff] at hm
      simp [digit_not_ws hm.1]
  unfold stripWs
  rw [h1 l h, h1 l.reverse (by simpa using h), List.reverse_reverse]

lemma pyInt_digits {l : List Char} (hne : l ≠ []) (h : l.all isDigitChar = true) :
    pyInt l = some (digitsToNat l : Int) := by
  unfold pyInt
  rw [digit_strip h]
  cases l with
  | nil => exact absurd rfl hne
  | cons c t =>
    simp only [List.all_cons, Bool.and_eq_true_iff] at h
    have hc : isDigitChar c = true := h.1
    have hminus : c ≠ '-' := by intro hcm; subst hcm; simp [isDigitChar] at hc
    have hplus : c ≠ '+' := by intro hcp; subst hcp; simp [isDigitChar] at hc
    split
    · simp_all
    · simp_all
    · simp_all
    · rw [if_pos]
      simp only [List.all_cons, Bool.and_eq_true_iff]
      exact ⟨hc, h.2⟩

lemma should_update_now_eq (cfg : ScheduleConfig) (now : Instant) (mh mm nh nm : Int)
    (hm : parse_time cfg.update_morning_time = some (mh, mm))
    (hn : parse_time cfg.update_night_time = some (nh, nm)) :
    should_update_now now cfg =
      some ((decide ((now.hour : Int) = mh ∧ (now.minute : Int) = mm) ||
             decide ((now.hour : Int) = nh ∧ (now.minute : Int) = nm) ||
             decide (now.weekday < 5 ∧ cfg.update_weekday_start ≤ now.hour ∧
               now.hour < cfg.update_weekday_end ∧
               now.minute % cfg.update_weekday_interval = 0)), 60) := by
  simp only [should_update_now, hm, hn, Option.bind_eq_bind, Option.bind_some, bind, pure]
  by_cases hA : (now.hour : Int) = mh ∧ (now.minute : Int) = mm <;>
    by_cases hB : (now.hour : Int) = nh ∧ (now.minute : Int) = nm <;>
      by_cases hC : now.weekday < 5 ∧ cfg.update_weekday_start ≤ now.hour ∧
          now.hour < cfg.update_weekday_end ∧
          now.minute % cfg.update_weekday_interval = 0 <;>
        simp [hA, hB, hC]

/-! ## Claim theorems: schedule policy -/

/-- C4: `should_update_now` returns true exactly when `now` matches the
morning time to the minute, or the night time to the minute, or falls on a
weekday (Mon-Fri) with hour in `[weekdayStart, weekdayEnd)` and minute
divisible by the weekday interval; with the default configuration it is
true at 04:00 and at 22:05 on any day, true on Wednesday 10:15, false on
Wednesday 10:16, and false on Saturday 10:15. -/
theorem should_update_now_spec (cfg : ScheduleConfig) (now : Instant)
    (mh mm nh nm : Int) (wd : Nat)
    (hm : parse_time cfg.update_morning_time = some (mh, mm))
    (hn : parse_time cfg.update_night_time = some (nh, nm)) :
    should_update_now now cfg =
      some ((decide ((now.hour : Int) = mh ∧ (now.minute : Int) = mm) ||
             decide ((now.hour : Int) = nh ∧ (now.minute : Int) = nm) ||
             decide (now.weekday < 5 ∧ cfg.update_weekday_start ≤ now.hour ∧
               now.hour < cfg.update_weekday_end ∧
               now.minute % cfg.update_weekday_interval = 0)), 60) ∧
    should_update_now ⟨wd, 4, 0⟩ default_config = some (true, 60) ∧
    should_update_now ⟨wd, 22, 5⟩ default_config = some (true, 60) ∧
    should_update_now ⟨2, 10, 15⟩ default_config = some (true, 60) ∧
    should_update_now ⟨2, 10, 16⟩ default_config = some (false, 60) ∧
    should_update_now ⟨5, 10, 15⟩ default_config = some (false, 60) := by
  refine ⟨should_update_now_eq cfg now mh mm nh nm hm hn, ?_, ?_, by decide, by decide, by decide⟩
  · rw [should_update_now_eq default_config ⟨wd, 4, 0⟩ 4 0 22 5 (by decide) (by decide)]
    simp
  · rw [should_update_now_eq default_config ⟨wd, 22, 5⟩ 4 0 22 5 (by decide) (by decide)]
    simp

/-- Witness for `should_update_now_spec` at the default configuration and
Wednesday 10:15. -/
theorem should_update_now_spec_witness :
    parse_time default_config.update_morning_time = some (4, 0) ∧
    parse_time default_config.update_night_time = some (22, 5) ∧
    (should_update_now ⟨2, 10, 15⟩ default_config =
      some ((decide (((10 : Nat) : Int) = 4 ∧ ((15 : Nat) : Int) = 0) ||
             decide (((10 : Nat) : Int) = 22 ∧ ((15 : Nat) : Int) = 5) ||
             decide ((2 : Nat) < 5 ∧
               default_config.update_weekday_start ≤ 10 ∧
               10 < default_config.update_weekday_end ∧ 15 % default_config.update_weekday_interval = 0)), 60) ∧
     should_update_now ⟨3, 4, 0⟩ default_config = some (true, 60) ∧
     should_update_now ⟨3, 22, 5⟩ default_config = some (true, 60) ∧
     should_update_now ⟨2, 10, 15⟩ default_config = some (true, 60) ∧
     should_update_now ⟨2, 10, 16⟩ default_config = some (false, 60) ∧
     should_update_now ⟨5, 10, 15⟩ default_config = some (false, 60)) :=
  ⟨by decide, by decide,
    should_update_now_spec default_config ⟨2, 10, 15⟩ 4 0 22 5 3 (by decide) (by decide)⟩

/-- C8: when `weekdayStartHour ≥ weekdayEndHour` the weekday-interval rule
never fires: `should_update_now` is true exactly on a to-the-minute match of
the morning or night time. -/
theorem should_update_now_degenerate (cfg : ScheduleConfig) (now : Instant)
    (mh mm nh nm : Int)
    (hm : parse_time cfg.update_morning_time = some (mh, mm))
    (hn : parse_time cfg.update_night_time = some (nh, nm))
    (hdeg : cfg.update_weekday_end ≤ cfg.update_weekday_start) :
    should_update_now now cfg =
      some ((decide ((now.hour : Int) = mh ∧ (now.minute : Int) = mm) ||
             decide ((now.hour : Int) = nh ∧ (now.minute : Int) = nm)), 60) := by
  rw [should_update_now_eq cfg now mh mm nh nm hm hn]
  have h3 : decide (now.weekday < 5 ∧ cfg.update_weekday_start ≤ now.hour ∧
      now.hour < cfg.update_weekday_end ∧
      now.minute % cfg.update_weekday_interval = 0) = false := by
    simp only [decide_eq_false_iff_not]
    rintro ⟨-, h1, h2, -⟩
    omega
  rw [h3, Bool.or_false]

/-- Witness for `should_update_now_degenerate`: start = end = 9,
Wednesday 10:15 — inside the old window but the degenerate window never
fires. -/
theorem should_update_now_degenerate_witness :
    parse_time "04:00" = some (4, 0) ∧ parse_time "22:05" = some (22, 5) ∧
    (9 : Nat) ≤ 9 ∧
    should_update_now ⟨2, 10, 15⟩ ⟨15, 9, 9, "22:05", "04:00"⟩ =
      some ((decide (((10 : Nat) : Int) = 4 ∧ ((15 : Nat) : Int) = 0) ||
             decide (((10 : Nat) : Int) = 22 ∧ ((15 : Nat) : Int) = 5)), 60) :=
  ⟨by decide, by decide, by decide,
    should_update_now_degenerate ⟨15, 9, 9, "22:05", "04:00"⟩ ⟨2, 10, 15⟩ 4 0 22 5
      (by decide) (by decide) (by decide)⟩

lemma splitOnChar_not_mem {l : List Char} (h : ':' ∉ l) : splitOnChar ':' l = [l] := by
  induction l with
  | nil => rfl
  | cons c t ih =>
    simp only [List.mem_cons, not_or] at h
    unfold splitOnChar
    rw [ih h.2]
    have hc : ¬c = ':' := fun hcc => h.1 hcc.symm
    simp [hc]

lemma parse_time_of_good {s : String} (h : goodHHMM s = true) :
    ∃ hm : Int × Int, parse_time s = some hm := by
  unfold goodHHMM at h
  cases hsp : splitOnChar ':' s.data with
  | nil => rw [hsp] at h; simp at h
  | cons p0 t =>
    cases t with
    | nil => rw [hsp] at h; simp at h
    | cons p1 rest =>
      rw [hsp] at h
      simp only [Bool.and_eq_true_iff, Bool.not_eq_true'] at h
      obtain ⟨⟨h0e, h0d⟩, h1e, h1d⟩ := h
      have h0ne : p0 ≠ [] := by
        intro hh; rw [hh] at h0e; simp at h0e
      have h1ne : p1 ≠ [] := by
        intro hh; rw [hh] at h1e; simp at h1e
      refine ⟨(digitsToNat p0, digitsToNat p1), ?_⟩
      simp [parse_time, hsp, pyInt_digits h0ne h0d, pyInt_digits h1ne h1d]

lemma should_update_now_isSome {now : Instant} {cfg : ScheduleConfig}
    (h1 : goodHHMM cfg.update_morning_time = true)
    (h2 : goodHHMM cfg.update_night_time = true) :
    (should_update_now now cfg).isSome = true := by
  obtain ⟨⟨mh, mm⟩, hm⟩ := parse_time_of_good h1
  obtain ⟨⟨nh, nm⟩, hn⟩ := parse_time_of_good h2
  rw [should_update_now_eq cfg now mh mm nh nm hm hn]
  rfl

/-- C10: schedule evaluation is total exactly on well-formed "HH:MM"
configuration strings: a `':'` separating two decimal numerals makes
`parse_time` return a pair and `should_update_now` return a value, while a
string with no `':'` or with non-numeric components makes the evaluation
raise (modelled as `none`) instead of returning false. -/
theorem parse_time_totality :
    (∀ s : String, goodHHMM s = true → (parse_time s).isSome = true) ∧
    (∀ (now : Instant) (cfg : ScheduleConfig),
      goodHHMM cfg.update_morning_time = true →
      goodHHMM cfg.update_night_time = true →
      (should_update_now now cfg).isSome = true) ∧
    (∀ s : String, ':' ∉ s.data → parse_time s = none) ∧
    (∀ (s : String) (p0 p1 : List Char) (rest : List (List Char)),
      splitOnChar ':' s.data = p0 :: p1 :: rest →
      pyInt p0 = none ∨ pyInt p1 = none → parse_time s = none) ∧
    (∀ (now : Instant) (cfg : ScheduleConfig),
      parse_time cfg.update_morning_time = none ∨
        parse_time cfg.update_night_time = none →
      should_update_now now cfg = none) := by
  refine ⟨?_, ?_, ?_, ?_, ?_⟩
  · intro s h
    obtain ⟨hm, hp⟩ := parse_time_of_good h
    rw [hp]; rfl
  · intro now cfg h1 h2
    exact should_update_now_isSome h1 h2
  · intro s h
    have hsp := splitOnChar_not_mem h
    cases hpi : pyInt s.data <;> simp [parse_time, hsp, hpi]
  · intro s p0 p1 rest hsp hor
    rcases hor with h | h
    · simp [parse_time, hsp, h]
    · cases hpi : pyInt p0 <;> simp [parse_time, hsp, hpi, h]
  · intro now cfg hor
    rcases hor with h | h
    · simp [should_update_now, h]
    · cases hpm : parse_time cfg.update_morning_time with
      | none => simp [should_update_now, hpm]
      | some p =>
        obtain ⟨mh, mm⟩ := p
        simp [should_update_now, hpm, h]

/-- Witness for `parse_time_totality`: "04:00" is well-formed and parses;
"2205" has no colon and raises; "aa:bb" has non-numeric components and
raises; a configuration with malformed morning time makes the whole
schedule evaluation raise. -/
theorem parse_time_totality_witness :
    goodHHMM "04:00" = true ∧ (parse_time "04:00").isSome = true ∧
    ':' ∉ "2205".data ∧ parse_time "2205" = none ∧
    splitOnChar ':' "aa:bb".data = ["aa".data, "bb".data] ∧
    pyInt "aa".data = none ∧ parse_time "aa:bb" = none ∧
    parse_time "xx:yy" = none ∧
    should_update_now ⟨0, 0, 0⟩ ⟨15, 9, 21, "22:05", "xx:yy"⟩ = none :=
  ⟨by decide, parse_time_totality.1 "04:00" (by decide),
    by decide, parse_time_totality.2.2.1 "2205" (by decide),
    by decide, by decide,
    parse_time_totality.2.2.2.1 "aa:bb" "aa".data "bb".data [] (by decide) (Or.inl (by decide)),
    by decide,
    parse_time_totality.2.2.2.2 ⟨0, 0, 0⟩ ⟨15, 9, 21, "22:05", "xx:yy"⟩ (Or.inl (by decide))⟩

lemma fetch_data_last_minute (name ts : String) (st : CoordState) (o : FetchOutcome) :
    (fetch_data name st o ts).state.last_update_minute = st.last_update_minute := by
  cases o with
  | ok s => rfl
  | unexpected m => rfl
  | err e =>
    cases e with
    | tokenExpired m => by_cases h : st.error_notified <;> simp [fetch_data, h]
    | portfolioNotFound m => rfl
    | portfolioError m => rfl

/-! ## Claim theorems: coordinator cycles -/

/-- C1: a tick whose minute-of-day equals `_last_update_minute` performs no
fetch and changes nothing: it returns the cached snapshot when one exists
and otherwise fails with the recoverable "Waiting for scheduled update"
condition, emitting no notification. -/
theorem update_same_minute (name ts : String) (st : CoordState) (cfg : ScheduleConfig)
    (now : Instant) (outcome : FetchOutcome) (p : Bool × Nat)
    (hs : should_update_now now cfg = some p)
    (hm : (now.hour : Int) * 60 + now.minute = st.last_update_minute) :
    async_update_data name st cfg now ts outcome =
      some { state := st
             notifications := []
             result := match st.last_successful_data with
               | some d => UpdateResult.ok d
               | none => UpdateResult.failed "Waiting for scheduled update"
             fetched := false } := by
  obtain ⟨b, k⟩ := p
  simp only [async_update_data, hs, Option.bind_eq_bind, Option.some_bind, bind, pure]
  rw [if_pos hm]
  cases hcache : st.last_successful_data <;> simp [hcache]

/-- Witness for `update_same_minute`: second tick at Wednesday 10:05 with
`_last_update_minute = 605` and no cached snapshot. -/
theorem update_same_minute_witness :
    should_update_now ⟨2, 10, 5⟩ default_config = some (false, 60) ∧
    ((10 : Nat) : Int) * 60 + ((5 : Nat) : Int) =
      (⟨none, 605, false⟩ : CoordState).last_update_minute ∧
    async_update_data "p" ⟨none, 605, false⟩ default_config ⟨2, 10, 5⟩ "ts"
        (.unexpected "boom") =
      some { state := ⟨none, 605, false⟩
             notifications := []
             result := UpdateResult.failed "Waiting for scheduled update"
             fetched := false } :=
  ⟨by decide, by decide,
    update_same_minute "p" "ts" ⟨none, 605, false⟩ default_config ⟨2, 10, 5⟩
      (.unexpected "boom") (false, 60) (by decide) (by decide)⟩

/-- C9: a tick at a new minute with a false schedule decision returns the
cached snapshot unchanged without fetching when a cache exists, and on
first run (no cache) records the minute and fetches anyway. -/
theorem update_not_scheduled (name ts : String) (st : CoordState) (cfg : ScheduleConfig)
    (now : Instant) (outcome : FetchOutcome) (k : Nat)
    (hs : should_update_now now cfg = some (false, k))
    (hm : (now.hour : Int) * 60 + now.minute ≠ st.last_update_minute) :
    async_update_data name st cfg now ts outcome =
      some (match st.last_successful_data with
        | some d => { state := st, notifications := [], result := .ok d, fetched := false }
        | none =>
          let eff := fetch_data name
            { st with last_update_minute := (now.hour : Int) * 60 + now.minute } outcome ts
          { state := eff.state, notifications := eff.notifications
            result := eff.result, fetched := true }) := by
  simp only [async_update_data, hs, Option.bind_eq_bind, Option.some_bind, bind, pure]
  rw [if_neg hm]
  cases hcache : st.last_successful_data <;> simp [hcache]

/-- Witness for `update_not_scheduled`: first run at Wednesday 10:16 (not a
scheduled minute), no cache — a fetch still happens and the minute is
recorded. -/
theorem update_not_scheduled_witness :
    should_update_now ⟨2, 10, 16⟩ default_config = some (false, 60) ∧
    ((10 : Nat) : Int) * 60 + ((16 : Nat) : Int) ≠
      (⟨none, -1, false⟩ : CoordState).last_update_minute ∧
    async_update_data "p" ⟨none, -1, false⟩ default_config ⟨2, 10, 16⟩ "ts"
        (.err (.portfolioError "down")) =
      some { state := ⟨none, 616, false⟩
             notifications := []
             result := UpdateResult.failed "API error for 'p': down"
             fetched := true } :=
  ⟨by decide, by decide, by
    rw [update_not_scheduled "p" "ts" ⟨none, -1, false⟩ default_config ⟨2, 10, 16⟩
      (.err (.portfolioError "down")) 60 (by decide) (by decide)]
    decide⟩

/-- C3: force refresh resets `_last_update_minute` to the sentinel `-1`
(never equal to a real minute-of-day in `[0, 1439]`), fetches
unconditionally — the hypothesis exhibits a false schedule decision at the
same instant — and on success stores the parsed snapshot and publishes it. -/
theorem force_refresh_spec (name ts : String) (st : CoordState) (outcome : FetchOutcome)
    (s : Summary) (now : Instant) (cfg : ScheduleConfig) (k : Nat)
    (hs : should_update_now now cfg = some (false, k)) :
    (async_force_refresh name st outcome ts).fetched = true ∧
    (async_force_refresh name st outcome ts).state.last_update_minute = -1 ∧
    ¬(0 ≤ (async_force_refresh name st outcome ts).state.last_update_minute ∧
      (async_force_refresh name st outcome ts).state.last_update_minute ≤ 1439) ∧
    (async_force_refresh name st (.ok s) ts).state.last_successful_data =
      some (parse_summary name ts s) ∧
    (async_force_refresh name st (.ok s) ts).published =
      some (some (parse_summary name ts s)) := by
  have hgen : ∀ o : FetchOutcome,
      (async_force_refresh name st o ts).state.last_update_minute = -1 ∧
      (async_force_refresh name st o ts).fetched = true := by
    intro o
    cases o with
    | ok s2 => exact ⟨rfl, rfl⟩
    | unexpected m => exact ⟨rfl, rfl⟩
    | err e =>
      cases e with
      | tokenExpired m =>
        by_cases hb : st.error_notified <;>
          simp [async_force_refresh, fetch_data, hb]
      | portfolioNotFound m => exact ⟨rfl, rfl⟩
      | portfolioError m => exact ⟨rfl, rfl⟩
  refine ⟨(hgen outcome).2, (hgen outcome).1, ?_, rfl, rfl⟩
  rw [(hgen outcome).1]
  omega

/-- Witness for `force_refresh_spec`: Saturday 10:15 (schedule false),
arbitrary prior state, failing and succeeding outcomes. -/
theorem force_refresh_spec_witness :
    should_update_now ⟨5, 10, 15⟩ default_config = some (false, 60) ∧
    ((async_force_refresh "p" ⟨none, 300, true⟩ (.unexpected "u") "ts").fetched = true ∧
     (async_force_refresh "p" ⟨none, 300, true⟩ (.unexpected "u") "ts").state.last_update_minute = -1 ∧
     ¬(0 ≤ (async_force_refresh "p" ⟨none, 300, true⟩ (.unexpected "u") "ts").state.last_update_minute ∧
       (async_force_refresh "p" ⟨none, 300, true⟩ (.unexpected "u") "ts").state.last_update_minute ≤ 1439) ∧
     (async_force_refresh "p" ⟨none, 300, true⟩
         (.ok ⟨"1", "2", "3", "4", "5", ⟨none, none, none, none, none⟩⟩) "ts").state.last_successful_data =
       some (parse_summary "p" "ts" ⟨"1", "2", "3", "4", "5", ⟨none, none, none, none, none⟩⟩) ∧
     (async_force_refresh "p" ⟨none, 300, true⟩
         (.ok ⟨"1", "2", "3", "4", "5", ⟨none, none, none, none, none⟩⟩) "ts").published =
       some (some (parse_summary "p" "ts" ⟨"1", "2", "3", "4", "5", ⟨none, none, none, none, none⟩⟩))) :=
  ⟨by decide,
    force_refresh_spec "p" "ts" ⟨none, 300, true⟩ (.unexpected "u")
      ⟨"1", "2", "3", "4", "5", ⟨none, none, none, none, none⟩⟩ ⟨5, 10, 15⟩
      default_config 60 (by decide)⟩

/-- C7: every failing fetch cycle — token-expired, portfolio-not-found,
generic api error, or unexpected exception — leaves `_last_successful_data`
unchanged; only a successful fetch overwrites the cached snapshot. -/
theorem fetch_data_frame (name ts : String) (st : CoordState) (o : FetchOutcome)
    (h : o.isFailure = true) :
    (fetch_data name st o ts).state.last_successful_data = st.last_successful_data := by
  cases o with
  | ok s => simp [FetchOutcome.isFailure] at h
  | unexpected m => rfl
  | err e =>
    cases e with
    | tokenExpired m => by_cases hb : st.error_notified <;> simp [fetch_data, hb]
    | portfolioNotFound m => rfl
    | portfolioError m => rfl

/-- Witness for `fetch_data_frame`: a generic api failure against a state
holding a cached snapshot with no numeric content. -/
theorem fetch_data_frame_witness :
    (FetchOutcome.err (.portfolioError "boom")).isFailure = true ∧
    (fetch_data "p" ⟨some ⟨"p", 0, 0, 0, 0, 0, "ts", ⟨none, none, none, none, none⟩⟩, 5, false⟩
        (.err (.portfolioError "boom")) "ts").state.last_successful_data =
      (⟨some ⟨"p", 0, 0, 0, 0, 0, "ts", ⟨none, none, none, none, none⟩⟩, 5, false⟩ :
        CoordState).last_successful_data :=
  ⟨by decide,
    fetch_data_frame "p" "ts"
      ⟨some ⟨"p", 0, 0, 0, 0, 0, "ts", ⟨none, none, none, none, none⟩⟩, 5, false⟩
      (.err (.portfolioError "boom")) (by decide)⟩

lemma default_isTok : (default : FetchOutcome).isTok = false := rfl

lemma default_isOk : (default : FetchOutcome).isOk = false := rfl

lemma fetch_data_notify (name ts : String) (st : CoordState) (o : FetchOutcome) :
    (!(fetch_data name st o ts).notifications.isEmpty) = (o.isTok && !st.error_notified) := by
  cases o with
  | ok s => simp [fetch_data, FetchOutcome.isTok]
  | unexpected m => simp [fetch_data, FetchOutcome.isTok]
  | err e =>
    cases e with
    | tokenExpired m =>
      by_cases hb : st.error_notified <;> simp [fetch_data, FetchOutcome.isTok, hb]
    | portfolioNotFound m => simp [fetch_data, FetchOutcome.isTok]
    | portfolioError m => simp [fetch_data, FetchOutcome.isTok]

lemma fetch_data_flag (name ts : String) (st : CoordState) (o : FetchOutcome) :
    (fetch_data name st o ts).state.error_notified = stepFlag st.error_notified o := by
  cases o with
  | ok s => rfl
  | unexpected m => rfl
  | err e =>
    cases e with
    | tokenExpired m =>
      by_cases hb : st.error_notified <;> simp [fetch_data, stepFlag, hb]
    | portfolioNotFound m => rfl
    | portfolioError m => rfl

lemma run_fetch_data_getD (name ts : String) (outs : List FetchOutcome) :
    ∀ (st : CoordState) (i : Nat),
      (run_fetch_data name ts st outs).2.getD i false =
        ((outs.getD i default).isTok && !((outs.take i).foldl stepFlag st.error_notified)) := by
  induction outs with
  | nil => intro st i; cases i <;> rfl
  | cons o rest ih =>
    intro st i
    cases i with
    | zero =>
      simp only [run_fetch_data, List.getD_cons_zero, List.take_zero, List.foldl_nil]
      exact fetch_data_notify name ts st o
    | succ i =>
      simp only [run_fetch_data, List.getD_cons_succ, List.take_succ_cons, List.foldl_cons]
      rw [ih, fetch_data_flag]

lemma foldl_stepFlag_true_iff (l : List FetchOutcome) :
    l.foldl stepFlag false = true ↔
      ∃ j, j < l.length ∧ (l.getD j default).isTok = true ∧
        ∀ k, j < k → k < l.length → (l.getD k default).isOk = false := by
  induction l using List.reverseRecOn with
  | nil => simp
  | append_singleton l o ih =>
    rw [List.foldl_append, List.foldl_cons, List.foldl_nil, List.length_append,
      List.length_singleton]
    cases o with
    | ok s =>
      simp only [stepFlag]
      constructor
      · intro h; exact absurd h (by simp)
      · rintro ⟨j, hj, htok, hafter⟩
        by_cases hjl : j < l.length
        · have hk := hafter l.length hjl (by omega)
          rw [List.getD_append_right l [.ok s] default l.length (le_refl _)] at hk
          simp [FetchOutcome.isOk] at hk
        · have hj' : j = l.length := by omega
          rw [hj', List.getD_append_right l [.ok s] default l.length (le_refl _)] at htok
          simp [FetchOutcome.isTok] at htok
    | err e =>
      cases e with
      | tokenExpired m =>
        simp only [stepFlag]
        constructor
        · intro _
          refine ⟨l.length, by omega, ?_, ?_⟩
          · rw [List.getD_append_right l [.err (.tokenExpired m)] default l.length (le_refl _)]
            simp [FetchOutcome.isTok]
          · intro k hk1 hk2; omega
        · intro _; trivial
      | portfolioNotFound m =>
        simp only [stepFlag]
        rw [ih]
        constructor
        · rintro ⟨j, hj, htok, hafter⟩
          refine ⟨j, by omega, ?_, ?_⟩
          · rw [List.getD_append l [.err (.portfolioNotFound m)] default j hj]; exact htok
          · intro k hk1 hk2
            by_cases hkl : k < l.length
            · rw [List.getD_append l [.err (.portfolioNotFound m)] default k hkl]
              exact hafter k hk1 hkl
            · have hk' : k = l.length := by omega
              rw [hk', List.getD_append_right l [.err (.portfolioNotFound m)] default l.length
                (le_refl _)]
              simp [FetchOutcome.isOk]
        · rintro ⟨j, hj, htok, hafter⟩
          by_cases hjl : j < l.length
          · refine ⟨j, hjl, ?_, ?_⟩
            · rw [List.getD_append l [.err (.portfolioNotFound m)] default j hjl] at htok
              exact htok
            · intro k hk1 hk2
              have := hafter k hk1 (by omega)
              rw [List.getD_append l [.err (.portfolioNotFound m)] default k hk2] at this
              exact this
          · have hj' : j = l.length := by omega
            rw [hj', List.getD_append_right l [.err (.portfolioNotFound m)] default l.length
              (le_refl _)] at htok
            simp [FetchOutcome.isTok] at htok
      | portfolioError m =>
        simp only [stepFlag]
        rw [ih]
        constructor
        · rintro ⟨j, hj, htok, hafter⟩
          refine ⟨j, by omega, ?_, ?_⟩
          · rw [List.getD_append l [.err (.portfolioError m)] default j hj]; exact htok
          · intro k hk1 hk2
            by_cases hkl : k < l.length
            · rw [List.getD_append l [.err (.portfolioError m)] default k hkl]
              exact hafter k hk1 hkl
            · have hk' : k = l.length := by omega
              rw [hk', List.getD_append_right l [.err (.portfolioError m)] default l.length
                (le_refl _)]
              simp [FetchOutcome.isOk]
        · rintro ⟨j, hj, htok, hafter⟩
          by_cases hjl : j < l.length
          · refine ⟨j, hjl, ?_, ?_⟩
            · rw [List.getD_append l [.err (.portfolioError m)] default j hjl] at htok
              exact htok
            · intro k hk1 hk2
              have := hafter k hk1 (by omega)
              rw [List.getD_append l [.err (.portfolioError m)] default k hk2] at this
              exact this
          · have hj' : j = l.length := by omega
            rw [hj', List.getD_append_right l [.err (.portfolioError m)] default l.length
              (le_refl _)] at htok
            simp [FetchOutcome.isTok] at htok
    | unexpected m =>
      simp only [stepFlag]
      rw [ih]
      constructor
      · rintro ⟨j, hj, htok, hafter⟩
        refine ⟨j, by omega, ?_, ?_⟩
        · rw [List.getD_append l [.unexpected m] default j hj]; exact htok
        · intro k hk1 hk2
          by_cases hkl : k < l.length
          · rw [List.getD_append l [.unexpected m] default k hkl]
            exact hafter k hk1 hkl
          · have hk' : k = l.length := by omega
            rw [hk', List.getD_append_right l [.unexpected m] default l.length (le_refl _)]
            simp [FetchOutcome.isOk]
      · rintro ⟨j, hj, htok, hafter⟩
        by_cases hjl : j < l.length
        · refine ⟨j, hjl, ?_, ?_⟩
          · rw [List.getD_append l [.unexpected m] default j hjl] at htok
            exact htok
          · intro k hk1 hk2
            have := hafter k hk1 (by omega)
            rw [List.getD_append l [.unexpected m] default k hk2] at this
            exact this
        · have hj' : j = l.length := by omega
          rw [hj', List.getD_append_right l [.unexpected m] default l.length (le_refl _)] at htok
          simp [FetchOutcome.isTok] at htok

lemma foldl_stepFlag_false_iff (l : List FetchOutcome) :
    l.foldl stepFlag false = false ↔
      ∀ j, j < l.length → (l.getD j default).isTok = true →
        ∃ k, j < k ∧ k < l.length ∧ (l.getD k default).isOk = true := by
  rw [← Bool.not_eq_true (l.foldl stepFlag false), foldl_stepFlag_true_iff]
  push_neg
  constructor
  · intro H j hj htok
    obtain ⟨k, hk1, hk2, hk3⟩ := H j hj htok
    exact ⟨k, hk1, hk2, by simpa using hk3⟩
  · intro H j hj htok
    obtain ⟨k, hk1, hk2, hk3⟩ := H j hj htok
    exact ⟨k, hk1, hk2, by simpa using hk3⟩

lemma getD_take_of_lt (outs : List FetchOutcome) (i j : Nat) (h : j < i) :
    (outs.take i).getD j default = outs.getD j default := by
  rw [List.getD_eq_getElem?_getD, List.getD_eq_getElem?_getD, List.getElem?_take_of_lt h]

/-! ## Claim theorems: notification de-duplication, number parser, api errors -/

/-- C2 counterexample: in the run token-expired, generic-api-error,
token-expired, the third cycle begins a new streak in the claim's sense (a
contiguous run of identical-class failures — the preceding failure is of a
different class), so the claim requires a notification there; the code
notifies only on the first cycle, giving `[true, false, false]`. -/
theorem fetch_notification_streak_counterexample :
    (FetchOutcome.err (ApiError.tokenExpired "t")).isTok = true ∧
    (FetchOutcome.err (ApiError.portfolioError "e")).isTok = false ∧
    (FetchOutcome.err (ApiError.portfolioError "e")).isFailure = true ∧
    (run_fetch_data "p" "ts" initState
      [FetchOutcome.err (ApiError.tokenExpired "t"),
       FetchOutcome.err (ApiError.portfolioError "e"),
       FetchOutcome.err (ApiError.tokenExpired "t")]).2 = [true, false, false] := by
  decide

/-- C2 (amended): in a run of fetch cycles starting with a clear
`_error_notified` flag, cycle `i` emits a notification exactly when it is a
token-expired failure and every earlier token-expired failure has been
followed by an intervening success — de-duplication is per
success-delimited failure run (non-token failures neither notify nor reset
the suppression), and a success clears it so a later token-expired failure
notifies again. -/
theorem fetch_notification_per_run (name ts : String) (st : CoordState)
    (outs : List FetchOutcome) (i : Nat) (h0 : st.error_notified = false) :
    (run_fetch_data name ts st outs).2.getD i false = amended_notifies outs i := by
  rw [run_fetch_data_getD, h0]
  unfold amended_notifies
  congr 1
  rw [Bool.eq_iff_iff]
  simp only [Bool.not_eq_true', List.all_eq_true, List.mem_range, Bool.or_eq_true,
    List.any_eq_true, Bool.and_eq_true, decide_eq_true_eq]
  rw [foldl_stepFlag_false_iff]
  simp only [List.length_take]
  constructor
  · intro H j hji
    by_cases htok : (outs.getD j default).isTok = true
    · by_cases hjlen : j < outs.length
      · obtain ⟨k, hk1, hk2, hk3⟩ := H j (by omega)
          (by rwa [getD_take_of_lt outs i j hji])
        rw [getD_take_of_lt outs i k (by omega)] at hk3
        exact Or.inr ⟨k, by omega, hk1, hk3⟩
      · rw [List.getD_eq_default _ _ (by omega)] at htok
        exact absurd htok (by simp [default_isTok])
    · exact Or.inl (by simpa using htok)
  · intro H j hjmin htok2
    have hji : j < i := by omega
    rw [getD_take_of_lt outs i j hji] at htok2
    rcases H j hji with hfalse | ⟨k, hki, hjk, hok⟩
    · rw [List.getD_eq_getElem?_getD] at htok2
      simp [htok2] at hfalse
    · have hklen : k < outs.length := by
        by_contra hk
        rw [List.getD_eq_default _ _ (by omega)] at hok
        exact absurd hok (by simp [default_isOk])
      refine ⟨k, hjk, by omega, ?_⟩
      rw [getD_take_of_lt outs i k hki]
      exact hok

/-- Witness for `fetch_notification_per_run`: token-expired, generic error,
success, token-expired from a fresh state — the amended rule predicts
notifications at cycles 0 and 3, and the run agrees. -/
theorem fetch_notification_per_run_witness :
    initState.error_notified = false ∧
    (run_fetch_data "p" "ts" initState
      [FetchOutcome.err (ApiError.tokenExpired "t"),
       FetchOutcome.err (ApiError.portfolioError "e"),
       FetchOutcome.ok ⟨"1", "2", "3", "4", "5", ⟨none, none, none, none, none⟩⟩,
       FetchOutcome.err (ApiError.tokenExpired "t")]).2.getD 3 false =
      amended_notifies
        [FetchOutcome.err (ApiError.tokenExpired "t"),
         FetchOutcome.err (ApiError.portfolioError "e"),
         FetchOutcome.ok ⟨"1", "2", "3", "4", "5", ⟨none, none, none, none, none⟩⟩,
         FetchOutcome.err (ApiError.tokenExpired "t")] 3 :=
  ⟨rfl,
    fetch_notification_per_run "p" "ts" initState
      [FetchOutcome.err (ApiError.tokenExpired "t"),
       FetchOutcome.err (ApiError.portfolioError "e"),
       FetchOutcome.ok ⟨"1", "2", "3", "4", "5", ⟨none, none, none, none, none⟩⟩,
       FetchOutcome.err (ApiError.tokenExpired "t")] 3 rfl⟩

/-- C5: the locale number parser never fails: the spec's five test values
hold, and every input whose cleaned form does not parse as a decimal
(`pen_core _ = none`, covering empty input too) yields `0.0`. -/
theorem parse_european_number_spec (v : String) (hv : pen_core v.data = none) :
    parse_european_number "240.937,98" = 24093798 / 100 ∧
    parse_european_number "41,71%" = 4171 / 100 ∧
    parse_european_number "-1.615,47" = -(161547 / 100) ∧
    parse_european_number "" = 0 ∧
    parse_european_number "garbage" = 0 ∧
    parse_european_number v = 0 := by
  refine ⟨?_, ?_, ?_, ?_, ?_, ?_⟩
  · have h : pen_core "240.937,98".data = some (false, 24093798, 2) := by decide
    simp [parse_european_number, h]
    norm_num
  · have h : pen_core "41,71%".data = some (false, 4171, 2) := by decide
    simp [parse_european_number, h]
    norm_num
  · have h : pen_core "-1.615,47".data = some (true, 161547, 2) := by decide
    simp [parse_european_number, h]
    norm_num
  · have h : pen_core "".data = none := by decide
    simp [parse_european_number, h]
  · have h : pen_core "garbage".data = none := by decide
    simp [parse_european_number, h]
  · simp [parse_european_number, hv]

/-- Witness for `parse_european_number_spec` at the unparseable input
`"12,34,56"` (two commas survive cleaning, so `float` raises). -/
theorem parse_european_number_spec_witness :
    pen_core "12,34,56".data = none ∧
    (parse_european_number "240.937,98" = 24093798 / 100 ∧
     parse_european_number "41,71%" = 4171 / 100 ∧
     parse_european_number "-1.615,47" = -(161547 / 100) ∧
     parse_european_number "" = 0 ∧
     parse_european_number "garbage" = 0 ∧
     parse_european_number "12,34,56" = 0) :=
  ⟨by decide, parse_european_number_spec "12,34,56" (by decide)⟩

/-- C6 counterexample: HTTP status 201 is 2xx and the body is a well-formed
success envelope, so the claim ("fails on non-2xx ... succeeds otherwise")
requires success, but `get_portfolio_summary` raises a generic
`PortfolioError` because the code tests `status != 200`. -/
theorem get_portfolio_summary_2xx_counterexample :
    ((200 : Nat) ≤ 201 ∧ (201 : Nat) < 300) ∧
    get_portfolio_summary 7
      { status := 201, system_status := some "ok", message_error_code := none
        data := [{ screen_data := some ⟨some "1", some "2", some "3", some "4", some "5"⟩ }] } =
      .error (.portfolioError "HTTP error 201") := by
  exact ⟨by omega, by decide⟩

/-- C6 (amended): `get_portfolio_summary` fails with `TokenExpiredError` on
upstream failure code `1001`, `PortfolioNotFoundError` on `203`, generic
`PortfolioError` on any other failure envelope, on HTTP status ≠ 200 (not
merely non-2xx), and on structurally malformed data; it succeeds
otherwise. -/
theorem get_portfolio_summary_classification (pid : Int) (resp : ApiResponse) :
    classOf (get_portfolio_summary pid resp) = claimed_summary_class resp := by
  by_cases h1 : resp.status = 200
  · by_cases h2 : resp.system_status = some "failed"
    · by_cases h3 : resp.message_error_code.getD "unknown" = "1001"
      · simp [get_portfolio_summary, claimed_summary_class, classOf, h1, h2, h3,
          ERROR_TOKEN_EXPIRED]
      · by_cases h4 : resp.message_error_code.getD "unknown" = "203"
        · simp [get_portfolio_summary, claimed_summary_class, classOf, h1, h2, h3, h4,
            ERROR_TOKEN_EXPIRED, ERROR_INVALID_PORTFOLIO]
        · simp [get_portfolio_summary, claimed_summary_class, classOf, h1, h2, h3, h4,
            ERROR_TOKEN_EXPIRED, ERROR_INVALID_PORTFOLIO]
    · cases hd : resp.data with
      | nil =>
        simp [get_portfolio_summary, claimed_summary_class, classOf, h1, h2, hd]
      | cons entry rest =>
        cases hsd : entry.screen_data with
        | none =>
          simp [get_portfolio_summary, claimed_summary_class, classOf, h1, h2, hd, hsd]
        | some fields =>
          simp [get_portfolio_summary, claimed_summary_class, classOf, h1, h2, hd, hsd]
  · simp [get_portfolio_summary, claimed_summary_class, classOf, h1]

end InvestingPortfolio
